import Mathlib

/-!
Shallow embedding of the cross-platform terminal UI shim (`curses.h`).

The repository is a single header defining a `WINDOW` character grid and a
`TerminalUI` controller with lifecycle (`initscr` / `endwin`), mode flags,
drawing (`mvaddch` / `mvprintw`), size detection (`detect_screen_size`) and
input (`getch` / `windows_getch`).

The POSIX branch of the platform-dependent code is embedded as the terminal
state machine: the live `termios` configuration is a field of a `Sys` record
threaded through the operations, `c_lflag` is split into its ICANON and ECHO
bits plus the remaining bits, and the `c_cc` entries VMIN and VTIME are kept
with the rest of the structure abstracted into one field.  The Windows input
decoder `windows_getch` is embedded over a finite list of input records
(the C++ loop blocks forever when no qualifying event arrives; the embedding
returns `none` when the list is exhausted).
-/

/-! ### Key definitions (mimicking ncurses), from the `#define`s -/

def KEY_UP : Int := 72
def KEY_DOWN : Int := 80
def KEY_LEFT : Int := 75
def KEY_RIGHT : Int := 77
def KEY_ENTER : Int := 13
def KEY_BACKSPACE : Int := 8
def KEY_ESC : Int := 27

/-! ### Windows virtual key codes used by `windows_getch` -/

def VK_UP : Nat := 38
def VK_DOWN : Nat := 40
def VK_LEFT : Nat := 37
def VK_RIGHT : Nat := 39
def VK_RETURN : Nat := 13
def VK_BACK : Nat := 8
def VK_ESCAPE : Nat := 27

/-- POSIX `struct termios`, split by the bits the code touches: the ICANON and
ECHO bits of `c_lflag`, the remaining `c_lflag` bits, the `c_cc` entries VMIN
and VTIME, and all remaining fields abstracted into `cc_rest`. -/
structure Termios where
  icanon : Bool
  echo : Bool
  lflag_rest : Nat
  vmin : Nat
  vtime : Nat
  cc_rest : Nat
  deriving Repr, DecidableEq

/-- The raw-mode mutation applied by `setup_terminal` and `getch`:
`c_lflag &= ~(ICANON | ECHO); c_cc[VMIN] = 0; c_cc[VTIME] = 0`. -/
def rawOf (t : Termios) : Termios :=
  { t with icanon := false, echo := false, vmin := 0, vtime := 0 }

/-- The `WINDOW` class: geometry plus a row-major character buffer
(`std::vector<std::vector<char>>`). -/
structure WINDOW where
  height : Int
  width : Int
  start_y : Int
  start_x : Int
  buffer : List (List Char)
  deriving Repr, DecidableEq

/-- The `WINDOW` constructor: `buffer.resize(height, vector<char>(width, ' '))`. -/
def WINDOW.make (h w y x : Int) : WINDOW :=
  { height := h, width := w, start_y := y, start_x := x,
    buffer := List.replicate h.toNat (List.replicate w.toNat ' ') }

/-- Read the buffer cell at row `r`, column `c` (space when out of range,
matching the all-space initialisation; in-range reads are the C++
`buffer[r][c]`). -/
def WINDOW.cell (w : WINDOW) (r c : Nat) : Char :=
  (w.buffer.getD r []).getD c ' '

/-- The assignment `buffer[r][c] = ch`. -/
def WINDOW.setCell (w : WINDOW) (r c : Nat) (ch : Char) : WINDOW :=
  { w with buffer := w.buffer.set r ((w.buffer.getD r []).set c ch) }

/-- Well-formedness of the buffer, established by the constructor:
`height` rows, each of exactly `width` columns. -/
def WINDOW.wf (w : WINDOW) : Prop :=
  w.buffer.length = w.height.toNat ∧ ∀ row ∈ w.buffer, row.length = w.width.toNat

instance (w : WINDOW) : Decidable w.wf := by
  unfold WINDOW.wf; infer_instance

/-- The `TerminalUI` fields: current window pointer, mode flags, and the saved
`old_termios` snapshot (`inited` embeds the C++ field named after the flag
that `initscr` sets and `endwin` clears). -/
structure TerminalUI where
  current_window : Option WINDOW
  inited : Bool
  echo_mode : Bool
  nodelay_mode : Bool
  cursor_visible : Bool
  old_termios : Termios
  deriving Repr, DecidableEq

/-- A `TerminalUI` object together with the live terminal configuration it
mutates through `tcgetattr` / `tcsetattr`. -/
structure Sys where
  ui : TerminalUI
  live : Termios
  deriving Repr, DecidableEq

/-- `setup_terminal` (POSIX branch): `tcgetattr(STDIN_FILENO, &old_termios)`
captures the live configuration into the saved snapshot, then a raw-mode
variant of it is installed with `tcsetattr`. -/
def setup_terminal (s : Sys) : Sys :=
  { ui := { s.ui with old_termios := s.live }, live := rawOf s.live }

/-- `restore_terminal` (POSIX branch): `tcsetattr(STDIN_FILENO, TCSANOW, &old_termios)`. -/
def restore_terminal (s : Sys) : Sys :=
  { s with live := s.ui.old_termios }

/-- `detect_screen_size`: the platform query result `(qh, qw)` is taken as
input; non-positive axes fall back to 80 columns and 24 rows independently. -/
def detect_screen_size (qh qw : Int) : Int × Int :=
  ((if qh ≤ 0 then 24 else qh), (if qw ≤ 0 then 80 else qw))

/-- `initscr`: reset the flags, detect the size, allocate the main window at
origin (0,0), then apply the raw-mode terminal setup. -/
def initscr (s : Sys) (qh qw : Int) : Sys :=
  let ui1 : TerminalUI :=
    { s.ui with inited := true, echo_mode := true,
                nodelay_mode := false, cursor_visible := true }
  let dims := detect_screen_size qh qw
  let ui2 : TerminalUI :=
    { ui1 with current_window := some (WINDOW.make dims.1 dims.2 0 0) }
  setup_terminal { s with ui := ui2 }

/-- `endwin`: no-op unless the flag set by `initscr` is still set; otherwise
restore the saved terminal configuration, clear the display (an external
effect with no model state), delete the window and clear the flag. -/
def endwin (s : Sys) : Sys :=
  if s.ui.inited = false then s
  else
    let s1 := restore_terminal s
    { s1 with ui := { s1.ui with current_window := none, inited := false } }

/-- `noecho`: records `echo_mode = false` and nothing else. -/
def noecho (s : Sys) : Sys :=
  { s with ui := { s.ui with echo_mode := false } }

/-- `keypad`: the setting is noted and discarded (`(void)enable`). -/
def keypad (s : Sys) (_enable : Bool) : Sys := s

/-- `nodelay`: records the no-delay flag. -/
def nodelay (s : Sys) (enable : Bool) : Sys :=
  { s with ui := { s.ui with nodelay_mode := enable } }

/-- `cbreak`: calls `setup_terminal` again. -/
def cbreak (s : Sys) : Sys := setup_terminal s

/-- `curs_set` (POSIX branch): records the visibility flag; the Unix side has
no platform call. -/
def curs_set (s : Sys) (visibility : Int) : Sys :=
  { s with ui := { s.ui with cursor_visible := 0 < visibility } }

/-- `getmaxyx`: the window's geometry, or (0,0) for a null window. -/
def getmaxyx (win : Option WINDOW) : Int × Int :=
  match win with
  | some w => (w.height, w.width)
  | none => (0, 0)

/-- `mvaddch`: write `ch` at `(y, x)` when a window is owned and `(y, x)` is
inside `[0, height) × [0, width)`; otherwise do nothing. -/
def TerminalUI.mvaddch (ui : TerminalUI) (y x : Int) (ch : Char) : TerminalUI :=
  match ui.current_window with
  | none => ui
  | some w =>
    if 0 ≤ y ∧ y < w.height ∧ 0 ≤ x ∧ x < w.width then
      { ui with current_window := some (w.setCell y.toNat x.toNat ch) }
    else ui

/-- The copy loop of `mvprintw`:
`for (i = 0; i < str.length() && x + i < width; ++i) buffer[y][x+i] = str[i]`. -/
def WINDOW.writeChars (w : WINDOW) (y : Nat) (x : Int) : List Char → Nat → WINDOW
  | [], _ => w
  | c :: rest, i =>
    if x + (i : Int) < w.width then
      (w.setCell y (x + (i : Int)).toNat c).writeChars y x rest (i + 1)
    else w

/-- `mvprintw`, with the `vsnprintf` result taken as the input string: no-op
when no window is owned or the start position is out of bounds, else run the
copy loop from index 0. -/
def TerminalUI.mvprintw (ui : TerminalUI) (y x : Int) (str : List Char) : TerminalUI :=
  match ui.current_window with
  | none => ui
  | some w =>
    if y < 0 ∨ y ≥ w.height ∨ x < 0 ∨ x ≥ w.width then ui
    else { ui with current_window := some (w.writeChars y.toNat x str 0) }

/-- One Windows `INPUT_RECORD`, reduced to the fields `windows_getch` reads:
whether `EventType == KEY_EVENT`, `bKeyDown`, `wVirtualKeyCode` and the
(sign-extended) `uChar.AsciiChar`. -/
structure InputRecord where
  is_key_event : Bool
  key_down : Bool
  virtual_key_code : Nat
  ascii_char : Int
  deriving Repr, DecidableEq

/-- `windows_getch` over the stream of console input records: skip non-key and
key-up events, translate the seven special virtual keys to the reserved codes,
return a nonzero ASCII character raw, and keep reading otherwise.  The C++
loop blocks when no qualifying record arrives; on a finite list this is
`none`. -/
def windows_getch : List InputRecord → Option Int
  | [] => none
  | r :: rest =>
    if r.is_key_event && r.key_down then
      if r.virtual_key_code = VK_UP then some KEY_UP
      else if r.virtual_key_code = VK_DOWN then some KEY_DOWN
      else if r.virtual_key_code = VK_LEFT then some KEY_LEFT
      else if r.virtual_key_code = VK_RIGHT then some KEY_RIGHT
      else if r.virtual_key_code = VK_RETURN then some KEY_ENTER
      else if r.virtual_key_code = VK_BACK then some KEY_BACKSPACE
      else if r.virtual_key_code = VK_ESCAPE then some KEY_ESC
      else if r.ascii_char ≠ 0 then some r.ascii_char
      else windows_getch rest
    else windows_getch rest

/-- `getch` (POSIX branch): save the live settings locally, install the
raw-mode variant, `read` one byte `b`, restore the saved settings, and return
the byte unchanged — no key translation happens on this branch. -/
def posix_getch (s : Sys) (b : Int) : Sys × Int :=
  let old_settings := s.live
  let s1 : Sys := { s with live := rawOf s.live }
  let ch := b
  let s2 : Sys := { s1 with live := old_settings }
  (s2, ch)

/-! ### Concrete states used by witnesses and counterexamples -/

/-- A live terminal configuration in canonical (cooked) mode. -/
def t0 : Termios :=
  { icanon := true, echo := true, lflag_rest := 0, vmin := 1, vtime := 0, cc_rest := 0 }

/-- A freshly constructed controller (the `TerminalUI()` constructor), with an
arbitrary initial snapshot value for the uninitialised `old_termios` field. -/
def ui0 : TerminalUI :=
  { current_window := none, inited := false, echo_mode := true,
    nodelay_mode := false, cursor_visible := true, old_termios := rawOf t0 }

/-- A fresh controller attached to a cooked-mode terminal. -/
def s0 : Sys := { ui := ui0, live := t0 }

/-- A 3-row, 5-column window as built by the constructor. -/
def wEx : WINDOW := WINDOW.make 3 5 0 0

/-- A started controller owning `wEx`. -/
def uiEx : TerminalUI :=
  { current_window := some wEx, inited := true, echo_mode := true,
    nodelay_mode := false, cursor_visible := true, old_termios := rawOf t0 }

/-- The example string of the truncation property. -/
def hello : List Char := ['H', 'E', 'L', 'L', 'O']

/-- A 3-row, 10-column window as built by the constructor. -/
def wEx10 : WINDOW := WINDOW.make 3 10 0 0

/-- A started controller owning `wEx10`. -/
def uiEx10 : TerminalUI :=
  { current_window := some wEx10, inited := true, echo_mode := true,
    nodelay_mode := false, cursor_visible := true, old_termios := rawOf t0 }

/-! ### Buffer lemmas -/

theorem getD_mem (l : List (List Char)) (r : Nat) (h : r < l.length) :
    l.getD r [] ∈ l := by
  rw [List.getD_eq_getElem?_getD, List.getElem?_eq_getElem h]
  exact List.getElem_mem h

theorem WINDOW.row_length (w : WINDOW) (h : w.wf) (r : Nat)
    (hr : r < w.buffer.length) :
    (w.buffer.getD r []).length = w.width.toNat :=
  h.2 _ (getD_mem _ _ hr)

theorem WINDOW.setCell_geom (w : WINDOW) (r c : Nat) (ch : Char) :
    (w.setCell r c ch).height = w.height ∧ (w.setCell r c ch).width = w.width ∧
    (w.setCell r c ch).start_y = w.start_y ∧ (w.setCell r c ch).start_x = w.start_x :=
  ⟨rfl, rfl, rfl, rfl⟩

theorem WINDOW.cell_setCell_self (w : WINDOW) (r c : Nat) (ch : Char)
    (hr : r < w.buffer.length) (hc : c < (w.buffer.getD r []).length) :
    (w.setCell r c ch).cell r c = ch := by
  unfold WINDOW.cell WINDOW.setCell
  rw [List.getD_eq_getElem?_getD, List.getD_eq_getElem?_getD,
    List.getElem?_set_self hr, Option.getD_some,
    List.getElem?_set_self hc, Option.getD_some]

theorem WINDOW.cell_setCell_ne (w : WINDOW) (r c r' c' : Nat) (ch : Char)
    (h : r ≠ r' ∨ c ≠ c') :
    (w.setCell r c ch).cell r' c' = w.cell r' c' := by
  by_cases hrr : r = r'
  · subst hrr
    have hc : c ≠ c' := h.resolve_left (fun hne => hne rfl)
    by_cases hlen : r < w.buffer.length
    · unfold WINDOW.cell WINDOW.setCell
      simp only [List.getD_eq_getElem?_getD, List.getElem?_set_self hlen,
        Option.getD_some, List.getElem?_set_ne hc]
    · unfold WINDOW.cell WINDOW.setCell
      rw [List.set_eq_of_length_le (by omega)]
  · unfold WINDOW.cell WINDOW.setCell
    simp only [List.getD_eq_getElem?_getD, List.getElem?_set_ne hrr]

theorem WINDOW.wf_setCell (w : WINDOW) (r c : Nat) (ch : Char)
    (h : w.wf) (hr : r < w.buffer.length) : (w.setCell r c ch).wf := by
  obtain ⟨h1, h2⟩ := h
  refine ⟨by simpa [WINDOW.setCell] using h1, ?_⟩
  intro row hrow
  simp only [WINDOW.setCell] at hrow
  rcases List.mem_or_eq_of_mem_set hrow with hmem | heq
  · exact h2 row hmem
  · subst heq
    rw [List.length_set]
    exact h2 _ (getD_mem _ _ hr)

theorem WINDOW.buffer_length_setCell (w : WINDOW) (r c : Nat) (ch : Char) :
    (w.setCell r c ch).buffer.length = w.buffer.length := by
  simp [WINDOW.setCell]

theorem WINDOW.writeChars_geom (w : WINDOW) (y : Nat) (x : Int)
    (str : List Char) (i : Nat) :
    (w.writeChars y x str i).height = w.height ∧
    (w.writeChars y x str i).width = w.width ∧
    (w.writeChars y x str i).start_y = w.start_y ∧
    (w.writeChars y x str i).start_x = w.start_x := by
  induction str generalizing w i with
  | nil => exact ⟨rfl, rfl, rfl, rfl⟩
  | cons c rest ih =>
    rw [WINDOW.writeChars]
    split
    · exact ih _ _
    · exact ⟨rfl, rfl, rfl, rfl⟩

theorem WINDOW.writeChars_buffer_length (w : WINDOW) (y : Nat) (x : Int)
    (str : List Char) (i : Nat) :
    (w.writeChars y x str i).buffer.length = w.buffer.length := by
  induction str generalizing w i with
  | nil => rfl
  | cons c rest ih =>
    rw [WINDOW.writeChars]
    split
    · rw [ih _ _]
      exact w.buffer_length_setCell _ _ _
    · rfl

theorem WINDOW.writeChars_wf (w : WINDOW) (y : Nat) (x : Int)
    (str : List Char) (i : Nat) (h : w.wf) (hy : y < w.buffer.length) :
    (w.writeChars y x str i).wf := by
  induction str generalizing w i with
  | nil => exact h
  | cons c rest ih =>
    rw [WINDOW.writeChars]
    split
    · refine ih _ _ (w.wf_setCell _ _ _ h hy) ?_
      rw [w.buffer_length_setCell]
      exact hy
    · exact h

theorem WINDOW.writeChars_frame (w : WINDOW) (y : Nat) (x : Int)
    (str : List Char) (i : Nat) (r c : Nat)
    (h : r ≠ y ∨ (c : Int) < x + i) :
    (w.writeChars y x str i).cell r c = w.cell r c := by
  induction str generalizing w i with
  | nil => rfl
  | cons ch rest ih =>
    rw [WINDOW.writeChars]
    split
    · rw [ih _ (i + 1) ?_]
      · refine WINDOW.cell_setCell_ne _ _ _ _ _ _ ?_
        rcases h with h | h
        · exact Or.inl (fun he => h he.symm)
        · refine Or.inr (fun he => ?_)
          omega
      · rcases h with h | h
        · exact Or.inl h
        · refine Or.inr (by push_cast; omega)
    · rfl

theorem WINDOW.writeChars_frame_hi (w : WINDOW) (y : Nat) (x : Int)
    (str : List Char) (i : Nat) (hx : 0 ≤ x) (r c : Nat)
    (h : x + i + str.length ≤ (c : Int)) :
    (w.writeChars y x str i).cell r c = w.cell r c := by
  induction str generalizing w i with
  | nil => rfl
  | cons ch rest ih =>
    rw [WINDOW.writeChars]
    split
    · rw [ih _ (i + 1) ?_]
      · refine WINDOW.cell_setCell_ne _ _ _ _ _ _ (Or.inr fun he => ?_)
        simp only [List.length_cons] at h
        omega
      · simp only [List.length_cons] at h
        push_cast
        omega
    · rfl

theorem WINDOW.writeChars_frame_width (w : WINDOW) (y : Nat) (x : Int)
    (str : List Char) (i : Nat) (hx : 0 ≤ x) (r c : Nat)
    (h : w.width ≤ (c : Int)) :
    (w.writeChars y x str i).cell r c = w.cell r c := by
  induction str generalizing w i with
  | nil => rfl
  | cons ch rest ih =>
    rw [WINDOW.writeChars]
    split
    · rename_i hcond
      rw [ih (w.setCell y (x + (i : Int)).toNat ch) (i + 1) h]
      refine WINDOW.cell_setCell_ne _ _ _ _ _ _ (Or.inr fun he => ?_)
      omega
    · rfl

theorem WINDOW.writeChars_cell (w : WINDOW) (y : Nat) (x : Int)
    (str : List Char) (i k : Nat) (h : w.wf) (hy : y < w.buffer.length)
    (hx : 0 ≤ x) (hk : k < str.length) (hwidth : x + i + k < w.width) :
    (w.writeChars y x str i).cell y (x.toNat + i + k) = str.getD k ' ' := by
  induction str generalizing w i k with
  | nil => simp at hk
  | cons c rest ih =>
    rw [WINDOW.writeChars]
    rw [if_pos (by omega : x + (i : Int) < w.width)]
    cases k with
    | zero =>
      rw [WINDOW.writeChars_frame _ _ _ _ _ _ _ (Or.inr (by push_cast; omega))]
      have e : x.toNat + i + 0 = (x + (i : Int)).toNat := by omega
      rw [e]
      refine WINDOW.cell_setCell_self _ _ _ _ hy ?_
      rw [w.row_length h _ hy]
      omega
    | succ k' =>
      have e : x.toNat + i + (k' + 1) = x.toNat + (i + 1) + k' := by omega
      rw [e, List.getD_cons_succ]
      refine ih _ (i + 1) k' (w.wf_setCell _ _ _ h hy) ?_ ?_ ?_
      · rw [w.buffer_length_setCell]
        exact hy
      · simpa using hk
      · show x + ((i : Int) + 1) + k' < w.width
        push_cast at hwidth ⊢
        omega

/-- `endwin` is a no-op on a controller whose flag is clear. -/
theorem endwin_noop (s : Sys) (h : s.ui.inited = false) : endwin s = s := by
  simp [endwin, h]

/-! ### Claims -/

/-- Claim C1, counterexample: the claim asserts that none of the seven
reserved key codes lies in the printable ASCII range 32–126, but the four
arrow-key codes 72, 80, 75 and 77 (the characters H, P, K, M) all do. -/
theorem C1_keycodes_counterexample :
    (32 ≤ KEY_UP ∧ KEY_UP ≤ 126) ∧ (32 ≤ KEY_DOWN ∧ KEY_DOWN ≤ 126) ∧
    (32 ≤ KEY_LEFT ∧ KEY_LEFT ≤ 126) ∧ (32 ≤ KEY_RIGHT ∧ KEY_RIGHT ≤ 126) := by
  decide

/-- Claim C1, amended: the seven reserved key codes are pairwise distinct;
ENTER (13), BACKSPACE (8) and ESCAPE (27) lie outside the printable ASCII
range 32–126, while UP (72), DOWN (80), LEFT (75) and RIGHT (77) lie inside
it. -/
theorem C1_keycodes_amended :
    ([KEY_UP, KEY_DOWN, KEY_LEFT, KEY_RIGHT, KEY_ENTER, KEY_BACKSPACE,
      KEY_ESC] : List Int).Nodup ∧
    (KEY_ENTER < 32 ∧ KEY_BACKSPACE < 32 ∧ KEY_ESC < 32) ∧
    (32 ≤ KEY_UP ∧ KEY_UP ≤ 126) ∧ (32 ≤ KEY_DOWN ∧ KEY_DOWN ≤ 126) ∧
    (32 ≤ KEY_LEFT ∧ KEY_LEFT ≤ 126) ∧ (32 ≤ KEY_RIGHT ∧ KEY_RIGHT ≤ 126) := by
  decide

/-- Claim C2, code bug: starting from a cooked-mode terminal `t0`, the run
`initscr; cbreak; endwin` leaves the terminal in the raw configuration
`rawOf t0`, not the original `t0`: `cbreak` calls `setup_terminal`, whose
`tcgetattr` overwrites the saved snapshot with the already-raw live
configuration, so the snapshot is captured twice in the cycle — the second
time after the raw-mode mutation — and `endwin`'s restore (documented in the
code as restoring the terminal to its original state) re-installs raw mode.
Without the intervening `cbreak` the original configuration is restored. -/
theorem C2_restore_code_bug :
    (endwin (cbreak (initscr s0 24 80))).live = rawOf t0 ∧
    rawOf t0 ≠ t0 ∧
    (endwin (initscr s0 24 80)).live = t0 := by
  refine ⟨rfl, by decide, rfl⟩

/-- Claim C6: `detect_screen_size` substitutes the defaults independently per
axis: a non-positive queried width becomes 80 and a non-positive queried
height becomes 24, while positive query results pass through unchanged. -/
theorem C6_detect_size_defaults (qh qw : Int) :
    ((qw ≤ 0 → (detect_screen_size qh qw).2 = 80) ∧
     (0 < qw → (detect_screen_size qh qw).2 = qw)) ∧
    ((qh ≤ 0 → (detect_screen_size qh qw).1 = 24) ∧
     (0 < qh → (detect_screen_size qh qw).1 = qh)) := by
  unfold detect_screen_size
  exact ⟨⟨fun h => by simp [if_pos h], fun h => by simp [if_neg (by omega : ¬ qw ≤ 0)]⟩,
         ⟨fun h => by simp [if_pos h], fun h => by simp [if_neg (by omega : ¬ qh ≤ 0)]⟩⟩

/-- Claim C6 witness: a failed width query (-1) with a successful height query
(30) yields width 80 and height 30. -/
theorem C6_detect_size_defaults_witness :
    (detect_screen_size 30 (-1)).2 = 80 ∧ (detect_screen_size 30 (-1)).1 = 30 :=
  ⟨(C6_detect_size_defaults 30 (-1)).1.1 (by decide),
   (C6_detect_size_defaults 30 (-1)).2.2 (by decide)⟩

/-- Claim C9: `noecho` changes only the recorded echo flag: the live terminal
configuration, the saved snapshot, the window, and every other flag are
unchanged. -/
theorem C9_noecho_frame (s : Sys) :
    (noecho s).ui.echo_mode = false ∧
    (noecho s).live = s.live ∧
    (noecho s).ui.old_termios = s.ui.old_termios ∧
    (noecho s).ui.current_window = s.ui.current_window ∧
    (noecho s).ui.nodelay_mode = s.ui.nodelay_mode ∧
    (noecho s).ui.cursor_visible = s.ui.cursor_visible ∧
    (noecho s).ui.inited = s.ui.inited :=
  ⟨rfl, rfl, rfl, rfl, rfl, rfl, rfl⟩

/-- Claim C3: `mvaddch` leaves the controller (hence the buffer) unchanged and
signals no error when no window is owned or `(y, x)` is outside
`[0, height) × [0, width)`; for in-bounds `(y, x)` on a well-formed window the
buffer cell at row `y`, column `x` equals `ch` afterwards. -/
theorem C3_plot_bounds (ui : TerminalUI) (y x : Int) (ch : Char) :
    (ui.current_window = none → ui.mvaddch y x ch = ui) ∧
    (∀ w, ui.current_window = some w →
      (¬ (0 ≤ y ∧ y < w.height ∧ 0 ≤ x ∧ x < w.width) → ui.mvaddch y x ch = ui) ∧
      ((0 ≤ y ∧ y < w.height ∧ 0 ≤ x ∧ x < w.width) → w.wf →
        ∃ w', (ui.mvaddch y x ch).current_window = some w' ∧
          w'.cell y.toNat x.toNat = ch)) := by
  constructor
  · intro h
    simp [TerminalUI.mvaddch, h]
  · intro w hw
    constructor
    · intro hnb
      simp only [TerminalUI.mvaddch, hw]
      rw [if_neg hnb]
    · intro hb hwf
      refine ⟨w.setCell y.toNat x.toNat ch, ?_, ?_⟩
      · simp only [TerminalUI.mvaddch, hw]
        rw [if_pos hb]
      · have hy : y.toNat < w.buffer.length := by rw [hwf.1]; omega
        refine w.cell_setCell_self _ _ ch hy ?_
        rw [w.row_length hwf _ hy]
        omega

/-- Claim C3 witness: on a started controller with a 3-by-5 window, writing
the character Z at (1, 2) puts Z in cell (1, 2); at (1, 7) and on a
window-less controller nothing changes. -/
theorem C3_plot_bounds_witness :
    (∃ w', (uiEx.mvaddch 1 2 'Z').current_window = some w' ∧ w'.cell 1 2 = 'Z') ∧
    uiEx.mvaddch 1 7 'Z' = uiEx ∧
    ui0.mvaddch 1 2 'Z' = ui0 :=
  ⟨(C3_plot_bounds uiEx 1 2 'Z').2 wEx rfl |>.2 (by decide) (by decide),
   (C3_plot_bounds uiEx 1 7 'Z').2 wEx rfl |>.1 (by decide),
   (C3_plot_bounds ui0 1 2 'Z').1 rfl⟩

/-- Claim C8: `endwin` is a no-op when the controller is not initialised;
after `endwin` the controller is uninitialised and owns no window, so a
second consecutive `endwin` is safe (it changes nothing, in particular the
terminal configuration is that of the single call).  The hypothesis is the
constructor-established invariant that an uninitialised controller owns no
window. -/
theorem C8_stop_idempotent (s : Sys)
    (hw : s.ui.inited = false → s.ui.current_window = none) :
    (s.ui.inited = false → endwin s = s) ∧
    (endwin s).ui.inited = false ∧
    (endwin s).ui.current_window = none ∧
    endwin (endwin s) = endwin s ∧
    (endwin (endwin s)).live = (endwin s).live := by
  by_cases h : s.ui.inited = false
  · have e : endwin s = s := endwin_noop s h
    refine ⟨fun _ => e, by rw [e]; exact h, by rw [e]; exact hw h, ?_, ?_⟩
    · simp only [e]
    · simp only [e]
  · have h' : s.ui.inited = true := by
      cases hb : s.ui.inited
      · exact absurd hb h
      · rfl
    have e1 : (endwin s).ui.inited = false := by
      simp [endwin, h', restore_terminal]
    have e2 : (endwin s).ui.current_window = none := by
      simp [endwin, h', restore_terminal]
    have e3 : endwin (endwin s) = endwin s := endwin_noop _ e1
    exact ⟨fun hc => absurd hc h, e1, e2, e3, by rw [e3]⟩

/-- Claim C8 witness: after starting from the fresh controller `s0`, one
`endwin` clears the flag and the window, and a second `endwin` changes
nothing. -/
theorem C8_stop_idempotent_witness :
    (endwin (initscr s0 24 80)).ui.inited = false ∧
    (endwin (initscr s0 24 80)).ui.current_window = none ∧
    endwin (endwin (initscr s0 24 80)) = endwin (initscr s0 24 80) :=
  ⟨(C8_stop_idempotent (initscr s0 24 80) (by intro h; exact absurd h (by decide))).2.1,
   (C8_stop_idempotent (initscr s0 24 80) (by intro h; exact absurd h (by decide))).2.2.1,
   (C8_stop_idempotent (initscr s0 24 80) (by intro h; exact absurd h (by decide))).2.2.2.1⟩

/-- Claim C7: after `initscr` the mode flags are at their defaults (echo on,
no-delay off, cursor visible), a window with origin (0, 0) is owned, and
`getmaxyx` reports dimensions that are both at least 1, equal to (24, 80)
when both axes of the size query fail. -/
theorem C7_start_defaults (s : Sys) (qh qw : Int) :
    (initscr s qh qw).ui.echo_mode = true ∧
    (initscr s qh qw).ui.nodelay_mode = false ∧
    (initscr s qh qw).ui.cursor_visible = true ∧
    (initscr s qh qw).ui.inited = true ∧
    (∃ w, (initscr s qh qw).ui.current_window = some w ∧
      w.start_y = 0 ∧ w.start_x = 0) ∧
    1 ≤ (getmaxyx (initscr s qh qw).ui.current_window).1 ∧
    1 ≤ (getmaxyx (initscr s qh qw).ui.current_window).2 ∧
    (qh ≤ 0 → qw ≤ 0 →
      getmaxyx (initscr s qh qw).ui.current_window = (24, 80)) := by
  refine ⟨rfl, rfl, rfl, rfl, ⟨_, rfl, rfl, rfl⟩, ?_, ?_, ?_⟩
  · show 1 ≤ (if qh ≤ 0 then (24 : Int) else qh)
    split <;> omega
  · show 1 ≤ (if qw ≤ 0 then (80 : Int) else qw)
    split <;> omega
  · intro h1 h2
    show ((if qh ≤ 0 then (24 : Int) else qh), (if qw ≤ 0 then (80 : Int) else qw))
      = (24, 80)
    rw [if_pos h1, if_pos h2]

/-- Claim C7 witness: starting `s0` with a failed size query (both axes 0)
yields the default 24-by-80 geometry. -/
theorem C7_start_defaults_witness :
    getmaxyx (initscr s0 0 0).ui.current_window = (24, 80) :=
  (C7_start_defaults s0 0 0).2.2.2.2.2.2.2 (by decide) (by decide)

/-- Claim C5, counterexample: on the POSIX branch `getch` returns the byte it
read with no translation at all.  An up-arrow key press reaches the POSIX
read as the escape sequence 27, 91, 65 (ESC, left bracket, capital A); each
byte is returned raw, and none of them is `KEY_UP`, so the up key is never
translated to its reserved code on this branch — the claim's "holds on both
platform branches" fails. -/
theorem C5_translate_counterexample :
    (posix_getch s0 27).2 = 27 ∧ (posix_getch s0 91).2 = 91 ∧
    (posix_getch s0 65).2 = 65 ∧
    (27 : Int) ≠ KEY_UP ∧ (91 : Int) ≠ KEY_UP ∧ (65 : Int) ≠ KEY_UP := by
  refine ⟨rfl, rfl, rfl, by decide, by decide, by decide⟩

/-- Claim C5, amended: on the Windows branch a key-down event whose virtual
key code is one of the seven special keys yields the corresponding reserved
code, and any other key-down event with a nonzero character yields that raw
character; the POSIX branch performs no translation — `getch` returns the
byte it read unchanged (and leaves the terminal state as it found it). -/
theorem C5_translate_amended :
    (∀ (rest : List InputRecord) (a : Int),
      windows_getch (⟨true, true, VK_UP, a⟩ :: rest) = some KEY_UP ∧
      windows_getch (⟨true, true, VK_DOWN, a⟩ :: rest) = some KEY_DOWN ∧
      windows_getch (⟨true, true, VK_LEFT, a⟩ :: rest) = some KEY_LEFT ∧
      windows_getch (⟨true, true, VK_RIGHT, a⟩ :: rest) = some KEY_RIGHT ∧
      windows_getch (⟨true, true, VK_RETURN, a⟩ :: rest) = some KEY_ENTER ∧
      windows_getch (⟨true, true, VK_BACK, a⟩ :: rest) = some KEY_BACKSPACE ∧
      windows_getch (⟨true, true, VK_ESCAPE, a⟩ :: rest) = some KEY_ESC) ∧
    (∀ (rest : List InputRecord) (vk : Nat) (a : Int),
      vk ∉ ([VK_UP, VK_DOWN, VK_LEFT, VK_RIGHT, VK_RETURN, VK_BACK,
             VK_ESCAPE] : List Nat) →
      a ≠ 0 →
      windows_getch (⟨true, true, vk, a⟩ :: rest) = some a) ∧
    (∀ (s : Sys) (b : Int), posix_getch s b = (s, b)) := by
  refine ⟨?_, ?_, ?_⟩
  · intro rest a
    refine ⟨?_, ?_, ?_, ?_, ?_, ?_, ?_⟩ <;>
      simp [windows_getch, VK_UP, VK_DOWN, VK_LEFT, VK_RIGHT, VK_RETURN,
        VK_BACK, VK_ESCAPE]
  · intro rest vk a hvk ha
    simp only [List.mem_cons, not_or] at hvk
    obtain ⟨h1, h2, h3, h4, h5, h6, h7, -⟩ := hvk
    simp [windows_getch, h1, h2, h3, h4, h5, h6, h7, ha]
  · intro s b
    rfl

/-- Claim C5 witness for the amended claim: a key-down record for the A key
(virtual key 65, character 97) is returned as the raw character 97 on the
Windows branch, and the POSIX branch returns the byte 97 it read. -/
theorem C5_translate_amended_witness :
    windows_getch (⟨true, true, 65, 97⟩ :: []) = some 97 ∧
    posix_getch s0 97 = (s0, 97) :=
  ⟨C5_translate_amended.2.1 [] 65 97 (by decide) (by decide),
   C5_translate_amended.2.2 s0 97⟩

/-- Claim C4: `mvprintw` is a no-op when no window is owned or the start
position is out of bounds; otherwise it copies the string left-to-right from
column `x` of row `y`, stopping at the right edge (the loop condition
`x + i < width`) or at the end of the string: within the copied region cell
`x + k` holds character `k`, cells of that row past the string's end are
unchanged, and no cell at a column at or past `width` is ever touched.  In
particular printing HELLO at (0, width-2) of a 10-column screen writes
exactly the two characters H and E. -/
theorem C4_print_at_truncation (ui : TerminalUI) (y x : Int) (str : List Char) :
    (ui.current_window = none → ui.mvprintw y x str = ui) ∧
    (∀ w, ui.current_window = some w →
      ((y < 0 ∨ y ≥ w.height ∨ x < 0 ∨ x ≥ w.width) → ui.mvprintw y x str = ui) ∧
      (w.wf → ¬ (y < 0 ∨ y ≥ w.height ∨ x < 0 ∨ x ≥ w.width) →
        ∃ w', (ui.mvprintw y x str).current_window = some w' ∧
          (∀ k : Nat, k < str.length → x + k < w.width →
            w'.cell y.toNat (x.toNat + k) = str.getD k ' ') ∧
          (∀ k : Nat, str.length ≤ k →
            w'.cell y.toNat (x.toNat + k) = w.cell y.toNat (x.toNat + k)) ∧
          (∀ r c : Nat, w.width ≤ (c : Int) → w'.cell r c = w.cell r c))) ∧
    uiEx10.mvprintw 0 8 hello =
      { uiEx10 with current_window := some { wEx10 with buffer :=
          [List.replicate 8 ' ' ++ ['H', 'E'],
           List.replicate 10 ' ', List.replicate 10 ' '] } } := by
  refine ⟨?_, ?_, by decide⟩
  · intro h
    simp [TerminalUI.mvprintw, h]
  · intro w hw
    constructor
    · intro hb
      simp only [TerminalUI.mvprintw, hw]
      rw [if_pos hb]
    · intro hwf hb
      refine ⟨w.writeChars y.toNat x str 0, ?_, ?_, ?_, ?_⟩
      · simp only [TerminalUI.mvprintw, hw]
        rw [if_neg hb]
      all_goals push_neg at hb
      · intro k hk hkw
        have hy : y.toNat < w.buffer.length := by rw [hwf.1]; omega
        have := w.writeChars_cell y.toNat x str 0 k hwf hy (by omega) hk
          (by push_cast; omega)
        simpa using this
      · intro k hk
        refine w.writeChars_frame_hi y.toNat x str 0 (by omega) _ _ ?_
        push_cast
        omega
      · intro r c hc
        exact w.writeChars_frame_width y.toNat x str 0 (by omega) r c hc

/-- Claim C4 witness: on a 3-by-5 screen an out-of-bounds start row writes
nothing, and on a window-less controller printing is a no-op. -/
theorem C4_print_at_truncation_witness :
    uiEx.mvprintw 5 0 hello = uiEx ∧ ui0.mvprintw 0 0 hello = ui0 :=
  ⟨(C4_print_at_truncation uiEx 5 0 hello).2.1 wEx rfl |>.1 (by decide),
   (C4_print_at_truncation ui0 0 0 hello).1 rfl⟩

/-- Claim C10: for an in-bounds position, `mvaddch` changes only the one cell
`(y, x)` — every other cell and the window's geometry are unchanged — and
`mvprintw` with an in-bounds start changes only cells of row `y` at columns
at least `x`: all other rows, the cells of row `y` before column `x`, and the
geometry are unchanged. -/
theorem C10_draw_frame (ui : TerminalUI) (y x : Int) (ch : Char)
    (str : List Char) :
    (∀ w, ui.current_window = some w →
      (0 ≤ y ∧ y < w.height ∧ 0 ≤ x ∧ x < w.width) →
      ∃ w', (ui.mvaddch y x ch).current_window = some w' ∧
        w'.height = w.height ∧ w'.width = w.width ∧
        w'.start_y = w.start_y ∧ w'.start_x = w.start_x ∧
        ∀ r c : Nat, ¬ (r = y.toNat ∧ c = x.toNat) → w'.cell r c = w.cell r c) ∧
    (∀ w, ui.current_window = some w →
      ¬ (y < 0 ∨ y ≥ w.height ∨ x < 0 ∨ x ≥ w.width) →
      ∃ w', (ui.mvprintw y x str).current_window = some w' ∧
        w'.height = w.height ∧ w'.width = w.width ∧
        w'.start_y = w.start_y ∧ w'.start_x = w.start_x ∧
        ∀ r c : Nat, (r ≠ y.toNat ∨ c < x.toNat) → w'.cell r c = w.cell r c) := by
  constructor
  · intro w hw hb
    refine ⟨w.setCell y.toNat x.toNat ch, ?_, rfl, rfl, rfl, rfl, ?_⟩
    · simp only [TerminalUI.mvaddch, hw]
      rw [if_pos hb]
    · intro r c hrc
      refine WINDOW.cell_setCell_ne _ _ _ _ _ _ ?_
      rcases Decidable.not_and_iff_or_not.mp hrc with h | h
      · exact Or.inl (fun he => h he.symm)
      · exact Or.inr (fun he => h he.symm)
  · intro w hw hb
    refine ⟨w.writeChars y.toNat x str 0, ?_,
      (w.writeChars_geom y.toNat x str 0).1,
      (w.writeChars_geom y.toNat x str 0).2.1,
      (w.writeChars_geom y.toNat x str 0).2.2.1,
      (w.writeChars_geom y.toNat x str 0).2.2.2, ?_⟩
    · simp only [TerminalUI.mvprintw, hw]
      rw [if_neg hb]
    · push_neg at hb
      intro r c hrc
      refine w.writeChars_frame y.toNat x str 0 r c ?_
      rcases hrc with h | h
      · exact Or.inl h
      · refine Or.inr ?_
        push_cast
        omega

/-- Claim C10 witness: writing Z at (1, 2) of the 3-by-5 screen and printing
HELLO from (1, 2) both preserve the geometry and leave the named frame cells
unchanged. -/
theorem C10_draw_frame_witness :
    (∃ w', (uiEx.mvaddch 1 2 'Z').current_window = some w' ∧
      w'.height = wEx.height ∧ w'.width = wEx.width ∧
      w'.start_y = wEx.start_y ∧ w'.start_x = wEx.start_x ∧
      ∀ r c : Nat, ¬ (r = 1 ∧ c = 2) → w'.cell r c = wEx.cell r c) ∧
    (∃ w', (uiEx.mvprintw 1 2 hello).current_window = some w' ∧
      w'.height = wEx.height ∧ w'.width = wEx.width ∧
      w'.start_y = wEx.start_y ∧ w'.start_x = wEx.start_x ∧
      ∀ r c : Nat, (r ≠ 1 ∨ c < 2) → w'.cell r c = wEx.cell r c) :=
  ⟨(C10_draw_frame uiEx 1 2 'Z' hello).1 wEx rfl (by decide),
   (C10_draw_frame uiEx 1 2 'Z' hello).2 wEx rfl (by decide)⟩
